import Mathlib

/-!
Verification of the oxford_asl GUI front end (asl.py).

This file shallowly embeds the pure logic of the program:
the data-ordering lookup table and its resolution (`AslRun.order_opts`,
`AslRun.get_data_order_options`), the command-sequence compiler
(`AslRun.get_run_sequence`), the timing-value derivation
(`AslInputOptions.tis`) and the volume-label expansion of the data-order
preview (`AslDataPreview.on_paint`).

Python floats are modelled as rationals; the `%.Nf` fixed-point formatting
is modelled by `fmtFixed`.  GUI widget state is modelled as a `Config`
record holding the values the getter methods of the tab pages return, and
the file system / image loader as an `Env` record of oracles.  An FSL
command (class `FslCmd`) accumulates the strings passed to `add`; we model
it as the program name plus the list of added option strings.
-/

namespace AslGui

/-- A single external command: the program plus the option strings passed to
`FslCmd.add`, in order (asl.py lines 38-63). -/
structure Cmd where
  prog : String
  args : List String
deriving DecidableEq, Repr

/-- The external environment consulted during compilation: the
file-existence oracle (`os.path.exists`) and the image loader
(`nib.load`, yielding a shape) which may fail with a message. -/
structure Env where
  pathExists : String → Bool
  load : String → Except String (List Nat)

/-- Python `str` of a bool, as used in the `%s` format of the volume-count
error message (asl.py line 446). -/
def pyBool (b : Bool) : String := if b then "True" else "False"

/-- Python `%i` of a bool (`int(True) = 1`), used for the `--spatial=%i`
style flags (asl.py lines 474-476). -/
def pyBoolInt (b : Bool) : String := if b then "1" else "0"

/-- Model of Python fixed-point formatting `"%.Nf" % q` for nonnegative
rationals: round to `prec` decimal places and print with exactly `prec`
fractional digits.  (The claims never depend on the digits themselves,
only on the fixed flag prefixes in front of them.) -/
def fmtFixed (prec : Nat) (q : ℚ) : String :=
  let m : Int := (q * (10 : ℚ) ^ prec + 1/2).floor
  let sign := if m < 0 then "-" else ""
  let a : Nat := m.natAbs
  let ip := a / 10 ^ prec
  let fp := a % 10 ^ prec
  let fs := toString fp
  let pad := String.mk (List.replicate (prec - fs.length) '0')
  sign ++ toString ip ++ "." ++ pad ++ fs

/-- Shorthand for `"%.2f"` formatting. -/
def fmt2 (q : ℚ) : String := fmtFixed 2 q

/-- Shorthand for `"%.5f"` formatting. -/
def fmt5 (q : ℚ) : String := fmtFixed 5 q

/-- The fixed ordering table `AslRun.order_opts` (asl.py lines 334-343),
with each flag string kept literally as in the source. -/
def order_opts : List (String × String) :=
  [("trp", "--ibf=tis --iaf=diff"),
   ("trp,tc", "--ibf=tis --iaf=tcb"),
   ("trp,ct", "--ibf=tis --iaf=ctb"),
   ("rtp", "--ibf=rpt --iaf=diff"),
   ("rtp,tc", "--rpt --iaf=tcb"),
   ("rtp,ct", "--ibf=rpt --iaf=ctb"),
   ("ptr,tc", "--ibf=tis --iaf=tc"),
   ("ptr,ct", "--ibf=tis --iaf=ct"),
   ("prt,tc", "--ibf=rpt --iaf=tc"),
   ("prt,ct", "--ibf=rpt --iaf=ct")]

/-- The lookup key built by `AslRun.get_data_order_options` (asl.py lines
417-421): when tag-control pairs are enabled the order string is suffixed
with ",tc" or ",ct" according to the tag-first flag. -/
def mkOrderKey (order : String) (tagfirst tc_pairs : Bool) : String :=
  if tc_pairs then order ++ (if tagfirst then ",tc" else ",ct") else order

/-- `AslRun.get_data_order_options` (asl.py lines 413-426): build the key,
look it up in `order_opts`, and return the table's flag string together
with the separate `--diff` option (nonempty exactly when tag-control pairs
are enabled); a lookup miss raises, modelled as `Except.error`. -/
def get_data_order_options (order : String) (tagfirst tc_pairs : Bool) :
    Except String (String × String) :=
  let key := mkOrderKey order tagfirst tc_pairs
  let diff_opt := if tc_pairs then "--diff" else ""
  match order_opts.lookup key with
  | some v => Except.ok (v, diff_opt)
  | none => Except.error "This data ordering is not supported by ASL_FILE"

/-- The configuration the tab pages expose through their getter methods.
Field names follow the Python getters: `AslInputOptions` (asl.py lines
932-964), `AslAnalysis` (lines 790-807), `AslDistCorr` (lines 704-711)
and `AslCalibration` (lines 610-629).  Numeric widget values are
rationals; `Option` fields model getters that can return `None`. -/
structure Config where
  data : String
  ntis : Nat
  tc_pairs : Bool
  order : String
  tagfirst : Bool
  ti_list : List ℚ
  labelling : Nat
  bolus_dur : List ℚ
  readout : Nat
  time_per_slice : ℚ
  multiband : Bool
  slices_per_band : Nat
  fsl_anat : Option String
  struc_image : Option String
  struc_image_bet : Nat
  struc_image_brain : String
  outdir : String
  mask : Option String
  wp : Bool
  bat : ℚ
  t1 : ℚ
  t1b : ℚ
  ie : ℚ
  spatial : Bool
  infer_t1 : Bool
  macro_ : Bool
  fixbolus : Bool
  pv : Bool
  mc : Bool
  transform : Bool
  transform_type : Nat
  transform_file : String
  distcorr : Bool
  distcorr_type : Nat
  fmap : String
  fmap_mag : String
  fmap_be : Bool
  cblip : Bool
  echosp : ℚ
  pedir : String
  calib : Bool
  m0_type : Nat
  calib_image : String
  seq_tr : ℚ
  seq_te : ℚ
  calib_gain : ℚ
  calib_mode : Nat
  ref_tissue_type_name : String
  ref_tissue_mask : Option String
  coil_image : Option String
  ref_t1 : ℚ
  ref_t2 : ℚ
  blood_t2 : ℚ

/-- `AslInputOptions.tis` (asl.py lines 941-948): the raw PLD values are
returned unchanged for pASL (selection 0); for cASL/pcASL (selection 1)
each PLD has the bolus duration added, a single shared bolus duration
being repeated `ntis` times first (`bolus_durs *= self.ntis()`). -/
def tis (cfg : Config) : List ℚ :=
  if cfg.labelling = 1 then
    let bolus_durs :=
      match cfg.bolus_dur with
      | [bd] => List.replicate cfg.ntis bd
      | bs => bs
    List.zipWith (· + ·) cfg.ti_list bolus_durs
  else cfg.ti_list

/-- `AslRun.check_exists` (asl.py lines 387-389). -/
def check_exists (env : Env) (label file : String) : Except String Unit :=
  if env.pathExists file then Except.ok ()
  else Except.error (label ++ " - no such file or directory")

/-- Input-scan validation of `AslRun.get_run_sequence` (asl.py lines
436-440): the input file must exist, must load as an image, the image must
be 4-dimensional; the 4th-dimension volume count is returned. -/
def input_shape_check (cfg : Config) (env : Env) : Except String Nat :=
  match check_exists env "Input data" cfg.data with
  | Except.error e => Except.error e
  | Except.ok _ =>
    match env.load cfg.data with
    | Except.error e => Except.error e
    | Except.ok shape =>
      if shape.length ≠ 4 then Except.error "Input data is not a 4D image"
      else Except.ok (shape.getD 3 0)

/-- Volume-count consistency check of `AslRun.get_run_sequence` (asl.py
lines 442-448): with `N = ntis` doubled when tag-control pairs are
enabled, the volume count must be divisible by `N`; on success the repeat
count `nvols / N` is exposed. -/
def check_volumes (nvols ntis : Nat) (tc_pairs : Bool) : Except String Nat :=
  let N := if tc_pairs then ntis * 2 else ntis
  if nvols % N ≠ 0 then
    Except.error ("Input data contains " ++ toString nvols ++
      " volumes - not consistent with " ++ toString ntis ++
      " TIs and TC pairs=" ++ pyBool tc_pairs)
  else Except.ok (nvols / N)

/-- White-paper block (asl.py lines 467-471): a single `--wp` flag, or
explicit `--t1` and `--bat` numeric flags. -/
def wp_args (cfg : Config) : List String :=
  if cfg.wp then ["--wp"]
  else ["--t1 " ++ fmt2 cfg.t1, "--bat " ++ fmt2 cfg.bat]

/-- Always-emitted numeric flags (asl.py lines 472-476). -/
def always_args (cfg : Config) : List String :=
  ["--t1b " ++ fmt2 cfg.t1b,
   "--alpha " ++ fmt2 cfg.ie,
   "--spatial=" ++ pyBoolInt cfg.spatial,
   "--fixbolus=" ++ pyBoolInt cfg.fixbolus,
   "--mc=" ++ pyBoolInt cfg.mc]

/-- Conditional single flags (asl.py lines 477-479); note the inverted
polarity of `--artoff`, emitted when the macrovascular option is off. -/
def flag_args (cfg : Config) : List String :=
  (if cfg.infer_t1 then ["--infert1"] else []) ++
  (if cfg.pv then ["--pvcorr"] else []) ++
  (if cfg.macro_ then [] else ["--artoff"])

/-- Brain-mask flag (asl.py lines 480-482), checking the file exists. -/
def mask_opts (cfg : Config) (env : Env) : Except String (List String) :=
  match cfg.mask with
  | none => Except.ok []
  | some m =>
    match check_exists env "Analysis mask" m with
    | Except.error e => Except.error e
    | Except.ok _ => Except.ok ["-m \"" ++ m ++ "\""]

/-- Labelling flag (asl.py lines 483-484): selection 1 (cASL/pcASL) emits
`--casl`; pASL emits nothing. -/
def casl_args (cfg : Config) : List String :=
  if cfg.labelling = 1 then ["--casl"] else []

/-- Registration block (asl.py lines 485-493). -/
def transform_opts (cfg : Config) (env : Env) : Except String (List String) :=
  if cfg.transform then
    if cfg.transform_type = 0 then
      match check_exists env "Transformation matrix" cfg.transform_file with
      | Except.error e => Except.error e
      | Except.ok _ => Except.ok ["--asl2struc \"" ++ cfg.transform_file ++ "\""]
    else if cfg.transform_type = 1 then
      match check_exists env "Warp image" cfg.transform_file with
      | Except.error e => Except.error e
      | Except.ok _ => Except.ok ["--regfrom \"" ++ cfg.transform_file ++ "\""]
    else Except.ok []
  else Except.ok []

/-- Structural-image block (asl.py lines 495-523): either the FSL_ANAT
directory is passed directly, or a raw structural image is staged with an
`imcp` copy to `outdir/structural_head` followed by a `bet` command on the
original image (selection 1) or an `imcp` copy of the pre-extracted brain
image, and the staged head/brain paths are referenced by `--s`/`--sbrain`;
returns the extra commands plus the argument tokens. -/
def struc_opts (cfg : Config) (env : Env) (outdir : String) :
    Except String (List Cmd × List String) :=
  match cfg.fsl_anat with
  | some d =>
    match check_exists env "FSL_ANAT" d with
    | Except.error e => Except.error e
    | Except.ok _ => Except.ok ([], ["--fslanat=\"" ++ d ++ "\""])
  | none =>
    match cfg.struc_image with
    | some s =>
      match check_exists env "Structural image" s with
      | Except.error e => Except.error e
      | Except.ok _ =>
        let cp : Cmd :=
          ⟨"imcp", ["\"" ++ s ++ "\"", "\"" ++ outdir ++ "/structural_head\""]⟩
        let brain : Except String (List Cmd) :=
          if cfg.struc_image_bet = 1 then
            Except.ok [⟨"bet", ["\"" ++ s ++ "\"",
              "\"" ++ outdir ++ "/structural_brain\""]⟩]
          else
            match check_exists env "Structural brain image" cfg.struc_image_brain with
            | Except.error e => Except.error e
            | Except.ok _ => Except.ok [⟨"imcp", ["\"" ++ cfg.struc_image_brain ++ "\"",
                "\"" ++ outdir ++ "/structural_brain\""]⟩]
        match brain with
        | Except.error e => Except.error e
        | Except.ok bcmds =>
          Except.ok (cp :: bcmds,
            ["--s \"" ++ outdir ++ "/structural_head\"",
             "--sbrain \"" ++ outdir ++ "/structural_brain\""])
    | none => Except.ok ([], [])

/-- 2D multi-slice readout flags (asl.py lines 525-529): the per-slice time
is converted from milliseconds to seconds. -/
def slice_args (cfg : Config) : List String :=
  if cfg.readout = 1 then
    ["--slicedt " ++ fmt5 (cfg.time_per_slice / 1000)] ++
    (if cfg.multiband then ["--sliceband " ++ toString cfg.slices_per_band] else [])
  else []

/-- Distortion-correction block (asl.py lines 531-545). -/
def distcorr_opts (cfg : Config) (env : Env) : Except String (List String) :=
  if cfg.distcorr then
    let fm : Except String (List String) :=
      if cfg.distcorr_type = 0 then
        match check_exists env "Fieldmap image" cfg.fmap with
        | Except.error e => Except.error e
        | Except.ok _ =>
          match check_exists env "Fieldmap magnitude image" cfg.fmap_mag with
          | Except.error e => Except.error e
          | Except.ok _ =>
            Except.ok ["--fmap=\"" ++ cfg.fmap ++ "\"",
              if cfg.fmap_be then "--fmapmagbrain=\"" ++ cfg.fmap_mag ++ "\""
              else "--fmapmag=\"" ++ cfg.fmap_mag ++ "\""]
      else Except.ok (if cfg.cblip then ["--cblip"] else [])
    match fm with
    | Except.error e => Except.error e
    | Except.ok args =>
      Except.ok (args ++ ["--echospacing=" ++ fmt5 cfg.echosp,
        "--pedir=" ++ cfg.pedir])
  else Except.ok []

/-- Reference-region calibration flags (asl.py lines 562-573). -/
def calib_ref_opts (cfg : Config) (env : Env) : Except String (List String) :=
  let fixed := ["--cmethod single",
    "--tissref " ++ cfg.ref_tissue_type_name.toLower,
    "--te " ++ fmt2 cfg.seq_te,
    "--t1csf " ++ fmt2 cfg.ref_t1,
    "--t2csf " ++ fmt2 cfg.ref_t2,
    "--t2bl " ++ fmt2 cfg.blood_t2]
  let withMask : Except String (List String) :=
    match cfg.ref_tissue_mask with
    | none => Except.ok fixed
    | some m =>
      match check_exists env "Calibration reference tissue mask" m with
      | Except.error e => Except.error e
      | Except.ok _ => Except.ok (fixed ++ ["--csf \"" ++ m ++ "\""])
  match withMask with
  | Except.error e => Except.error e
  | Except.ok args =>
    match cfg.coil_image with
    | none => Except.ok args
    | some c =>
      match check_exists env "Coil sensitivity reference image" c with
      | Except.error e => Except.error e
      | Except.ok _ => Except.ok (args ++ ["--cref \"" ++ c ++ "\""])

/-- Calibration block (asl.py lines 547-575): when enabled, the
calibration image must exist, the saturation-recovery M0 mode (selection
other than 0) always raises, and the calibration method is either the
reference-region flag set or the bare voxelwise method flag. -/
def calib_opts (cfg : Config) (env : Env) : Except String (List String) :=
  if cfg.calib then
    match check_exists env "Calibration image" cfg.calib_image with
    | Except.error e => Except.error e
    | Except.ok _ =>
      let base := ["-c \"" ++ cfg.calib_image ++ "\""]
      match (if cfg.m0_type = 0 then Except.ok ["--tr " ++ fmt2 cfg.seq_tr]
             else Except.error "Saturation recovery not supported by oxford_asl" :
             Except String (List String)) with
      | Except.error e => Except.error e
      | Except.ok trArgs =>
        let gain := ["--cgain " ++ fmt2 cfg.calib_gain]
        match (if cfg.calib_mode = 0 then calib_ref_opts cfg env
               else Except.ok ["--cmethod voxel"]) with
        | Except.error e => Except.error e
        | Except.ok modeArgs => Except.ok (base ++ trArgs ++ gain ++ modeArgs)
  else Except.ok []

/-- The main `oxford_asl` command, with every `cmd.add` call of asl.py
lines 461-575 represented by one token, in source order. -/
def mkMainCmd (cfg : Config) (oflags : String)
    (maskArgs trArgs strucArgs dcArgs calArgs : List String) : Cmd :=
  ⟨"oxford_asl",
    [" -i \"" ++ cfg.data ++ "\"",
     "-o \"" ++ cfg.outdir ++ "\"",
     oflags,
     "--tis " ++ String.intercalate "," ((tis cfg).map fmt2),
     "--bolus " ++ String.intercalate "," (cfg.bolus_dur.map fmt2)] ++
    wp_args cfg ++ always_args cfg ++ flag_args cfg ++ maskArgs ++
    casl_args cfg ++ trArgs ++ strucArgs ++ slice_args cfg ++
    dcArgs ++ calArgs⟩

/-- `AslRun.get_run_sequence` (asl.py lines 428-578): validate the input
scan, the volume count and the output directory, resolve the data
ordering (only the first component of `get_data_order_options` is added,
line 464), run the per-block checks in source order, and return the
staged structural commands followed by the main command.  The first
failing check aborts compilation with its message. -/
def get_run_sequence (cfg : Config) (env : Env) : Except String (List Cmd) :=
  match input_shape_check cfg env with
  | Except.error e => Except.error e
  | Except.ok nvols =>
  match check_volumes nvols cfg.ntis cfg.tc_pairs with
  | Except.error e => Except.error e
  | Except.ok _nrepeats =>
  if cfg.outdir = "" then Except.error "Output directory not specified"
  else
  match get_data_order_options cfg.order cfg.tagfirst cfg.tc_pairs with
  | Except.error e => Except.error e
  | Except.ok od =>
  match mask_opts cfg env with
  | Except.error e => Except.error e
  | Except.ok maskArgs =>
  match transform_opts cfg env with
  | Except.error e => Except.error e
  | Except.ok trArgs =>
  match struc_opts cfg env cfg.outdir with
  | Except.error e => Except.error e
  | Except.ok struc =>
  match distcorr_opts cfg env with
  | Except.error e => Except.error e
  | Except.ok dcArgs =>
  match calib_opts cfg env with
  | Except.error e => Except.error e
  | Except.ok calArgs =>
    Except.ok (struc.1 ++
      [mkMainCmd cfg od.1 maskArgs trArgs struc.2 dcArgs calArgs])

/-- The `AslCalibration.update` coupling of asl.py line 657: when
white-paper mode is on, the calibration-mode choice is forced to
selection 1 (voxelwise). -/
def update_calib_mode (wp : Bool) (calib_mode : Nat) : Nat :=
  if wp then 1 else calib_mode

/-- One step of the volume-label expansion of `AslDataPreview.on_paint`
(asl.py lines 1214-1232): the list of labels an existing label `i`
expands to for order letter `t`.  Letter `t` replicates across timing
points, `p` expands to the [tag, control] or [control, tag] pair when
pairs are enabled (`+1` marks control), and `r` appends `n_repeats - 1`
repeat-duplicates (`+2` marks a repeat). -/
def expand_step (n_tis n_repeats : Nat) (tc_pairs tagfirst : Bool)
    (t : Char) (i : Nat) : List Nat :=
  if t = 't' then List.replicate n_tis i
  else if t = 'p' then
    (if ¬tc_pairs then [i]
     else if tagfirst then [i, i + 1]
     else [i + 1, i])
  else if t = 'r' then i :: List.replicate (n_repeats - 1) (i + 2)
  else []

/-- The volume-label sequence built by `AslDataPreview.on_paint` (asl.py
lines 1214-1232): starting from the single seed label `1`, process the
order letters from innermost to outermost (the string reversed), replacing
every element by its expansion. -/
def order_seq (order : String) (n_tis n_repeats : Nat)
    (tc_pairs tagfirst : Bool) : List Nat :=
  order.data.reverse.foldl
    (fun seq t => seq.flatMap (expand_step n_tis n_repeats tc_pairs tagfirst t)) [1]

/-- The timing-index period scan of `AslDataPreview.on_paint` (asl.py
lines 1234-1241): walk the sequence looking for the first two occurrences
of label 1; their index distance is the period, defaulting to 1. -/
def ti_sep_go : List Nat → Nat → Option Nat → Nat
  | [], _, _ => 1
  | s :: rest, idx, none =>
    if s = 1 then ti_sep_go rest (idx + 1) (some idx)
    else ti_sep_go rest (idx + 1) none
  | s :: rest, idx, some t0 =>
    if s = 1 then idx - t0 else ti_sep_go rest (idx + 1) (some t0)

/-- The timing-index period of a label sequence (asl.py lines 1234-1241). -/
def ti_sep_calc (seq : List Nat) : Nat := ti_sep_go seq 0 none

/-- The timing-index assignment of the paint loop (asl.py lines
1246-1267): the timing index starts at 0, advances after every `sep`
elements and wraps back to 0 at `n_tis`. -/
def ti_assign_go : List Nat → Nat → Nat → Nat → Nat → List Nat
  | [], _, _, _, _ => []
  | _ :: rest, idx, ti, sep, n_tis =>
    ti :: ti_assign_go rest (idx + 1)
      (if (idx + 1) % sep = 0 then (if ti + 1 = n_tis then 0 else ti + 1) else ti)
      sep n_tis

/-- Timing index assigned to each element of a label sequence (asl.py
lines 1246-1267). -/
def ti_assign (seq : List Nat) (sep n_tis : Nat) : List Nat :=
  ti_assign_go seq 0 0 sep n_tis

/-- A valid order specification: a 3-letter permutation of the dimension
letters t, r, p (spec section 3, OrderSpec invariant). -/
def validOrder (order : String) : Prop := List.Perm order.data ['t', 'r', 'p']

instance decidableValidOrder (order : String) : Decidable (validOrder order) :=
  inferInstanceAs (Decidable (List.Perm order.data ['t', 'r', 'p']))

/-- Helper: does the compilation result hold a command sequence. -/
def compileOk (r : Except String (List Cmd)) : Bool :=
  match r with
  | Except.ok _ => true
  | Except.error _ => false

/-- Helper: the command list of a successful compilation result. -/
def cmdsOf (r : Except String (List Cmd)) : List Cmd :=
  match r with
  | Except.ok cmds => cmds
  | Except.error _ => []

/-- Token shape: the token starts with one of the given literal flag
prefixes (as a character list, to avoid string-append rewriting). -/
def TokShape (prefixes : List String) (t : String) : Prop :=
  ∃ p ∈ prefixes, ∃ x : List Char, t.data = p.data ++ x

/-- The per-volume label multiplier of one order letter in the preview
expansion: `t` multiplies the sequence length by the number of timing
points, `p` by 2 when pairs are enabled, `r` by the number of repeats. -/
def order_mult (n_tis n_repeats : Nat) (tc_pairs : Bool) (c : Char) : Nat :=
  if c = 't' then n_tis
  else if c = 'p' then (if tc_pairs then 2 else 1)
  else if c = 'r' then n_repeats
  else 0

/-- Fixed flag prefixes that can start a token of the main command, apart
from the white-paper block and the ordering flags. -/
def mainCorePrefixes : List String :=
  [" -i \"", "-o \"", "--tis ", "--bolus ",
   "--t1b ", "--alpha ", "--spatial=", "--fixbolus=", "--mc=",
   "--infert1", "--pvcorr", "--artoff", "-m \"", "--casl",
   "--asl2struc \"", "--regfrom \"", "--fslanat=\"", "--s \"", "--sbrain \"",
   "--slicedt ", "--sliceband ",
   "--fmap=\"", "--fmapmagbrain=\"", "--fmapmag=\"", "--cblip",
   "--echospacing=", "--pedir=",
   "-c \"", "--tr ", "--cgain ", "--cmethod single", "--tissref ", "--te ",
   "--t1csf ", "--t2csf ", "--t2bl ", "--csf \"", "--cref \"",
   "--cmethod voxel"] ++ order_opts.map Prod.snd

/-- Flag prefixes contributed by the white-paper block. -/
def wpPrefixes (cfg : Config) : List String :=
  if cfg.wp then ["--wp"] else ["--t1 ", "--bat "]

/-- All flag prefixes a main-command token can start with. -/
def mainPrefixes (cfg : Config) : List String :=
  mainCorePrefixes ++ wpPrefixes cfg

/-- A neutral baseline configuration used by the concrete witnesses. -/
def cfgBase : Config :=
  { data := "in.nii", ntis := 1, tc_pairs := false, order := "trp",
    tagfirst := true, ti_list := [2], labelling := 0, bolus_dur := [1],
    readout := 0, time_per_slice := 10, multiband := false,
    slices_per_band := 5, fsl_anat := none, struc_image := none,
    struc_image_bet := 0, struc_image_brain := "", outdir := "out",
    mask := none, wp := false, bat := 1, t1 := 1, t1b := 1, ie := 1,
    spatial := true, infer_t1 := false, macro_ := false, fixbolus := true,
    pv := false, mc := false, transform := false, transform_type := 0,
    transform_file := "", distcorr := false, distcorr_type := 0,
    fmap := "", fmap_mag := "", fmap_be := false, cblip := false,
    echosp := 0, pedir := "x", calib := false, m0_type := 0,
    calib_image := "calib.nii", seq_tr := 6, seq_te := 0, calib_gain := 1,
    calib_mode := 0, ref_tissue_type_name := "CSF", ref_tissue_mask := none,
    coil_image := none, ref_t1 := 4, ref_t2 := 7, blood_t2 := 1 }

/-- An environment where every file exists and the input scan is a 4D
image with 4 volumes. -/
def envOk : Env := ⟨fun _ => true, fun _ => Except.ok [1, 1, 1, 4]⟩

/-- Configuration choosing the unsupported pairless ordering "tpr". -/
def cfgC1 : Config := { cfgBase with order := "tpr" }

/-- Configuration with tag-control pairs enabled (key "trp,tc"). -/
def cfgC2 : Config := { cfgBase with tc_pairs := true }

/-- Configuration with calibration enabled in saturation-recovery mode. -/
def cfgC6 : Config := { cfgBase with calib := true, m0_type := 1 }

/-- Configuration with white-paper mode and voxelwise calibration. -/
def cfgC7 : Config := { cfgBase with wp := true, calib := true, calib_mode := 1 }

/-- Configuration with a raw structural image and brain extraction
requested. -/
def cfgC8 : Config :=
  { cfgBase with struc_image := some "struc.nii", struc_image_bet := 1 }

/-- Configuration with cASL/pcASL labelling and a shared bolus duration. -/
def cfgC9 : Config := { cfgBase with labelling := 1 }

/-- A list prefix test fails on an extended list when neither of the two
heads is a prefix of the other. -/
theorem isPrefixOf_append_false {p : List Char} :
    ∀ {a : List Char} (b : List Char), p.isPrefixOf a = false →
      a.isPrefixOf p = false → p.isPrefixOf (a ++ b) = false := by
  induction p with
  | nil => intro a b h1 _; simp [List.isPrefixOf] at h1
  | cons x xs ih =>
    intro a b h1 h2
    cases a with
    | nil => simp [List.isPrefixOf] at h2
    | cons y ys =>
      by_cases hxy : x = y
      · subst hxy
        have hb : (x == x) = true := by simp
        simp only [List.cons_append, List.isPrefixOf, hb, Bool.true_and] at h1 h2 ⊢
        exact ih b h1 h2
      · simp only [List.cons_append, List.isPrefixOf]
        have : (x == y) = false := by simp [hxy]
        simp [this]

/-- A string starting with a literal head `a` cannot equal a string `c`
that `a` is not a prefix of. -/
theorem ne_of_head_not_prefix {t c : String} {a : List Char} {x : List Char}
    (ht : t.data = a ++ x) (h : a.isPrefixOf c.data = false) : t ≠ c := by
  intro he
  subst he
  have hp : a <+: t.data := ⟨x, ht.symm⟩
  rw [← List.isPrefixOf_iff_prefix] at hp
  rw [hp] at h
  exact Bool.true_eq_false.mp h

/-- A token of a known shape is never equal to the fixed string `c` when
no allowed head is a prefix of `c`. -/
theorem TokShape.ne_lit {A : List String} {t c : String} (hs : TokShape A t)
    (hA : ∀ a ∈ A, a.data.isPrefixOf c.data = false) : t ≠ c := by
  obtain ⟨p, hp, x, ht⟩ := hs
  exact ne_of_head_not_prefix ht (hA p hp)

/-- A token of a known shape never starts with the pattern `q` when, for
every allowed head, neither the head nor the pattern is a prefix of the
other. -/
theorem TokShape.not_startsWith {A : List String} {t q : String} (hs : TokShape A t)
    (hA : ∀ a ∈ A, q.data.isPrefixOf a.data = false ∧ a.data.isPrefixOf q.data = false) :
    q.data.isPrefixOf t.data = false := by
  obtain ⟨p, hp, x, ht⟩ := hs
  rw [ht]
  exact isPrefixOf_append_false x (hA p hp).1 (hA p hp).2

/-- Token shapes are monotone in the allowed head list. -/
theorem TokShape.mono {A B : List String} {t : String} (hs : TokShape A t)
    (hAB : ∀ a ∈ A, a ∈ B) : TokShape B t := by
  obtain ⟨p, hp, x, ht⟩ := hs
  exact ⟨p, hAB p hp, x, ht⟩

/-- Introduction for token shapes: a literal head followed by any string. -/
theorem tokShape_append {A : List String} (p x : String) (hp : p ∈ A) :
    TokShape A (p ++ x) := ⟨p, hp, x.data, String.data_append p x⟩

/-- Introduction for token shapes: a bare literal token. -/
theorem tokShape_lit {A : List String} (p : String) (hp : p ∈ A) :
    TokShape A p := ⟨p, hp, [], by simp⟩

/-- Introduction for token shapes: a literal head, a variable middle and a
literal tail. -/
theorem tokShape_append2 {A : List String} (p m s : String) (hp : p ∈ A) :
    TokShape A (p ++ m ++ s) :=
  ⟨p, hp, m.data ++ s.data, by simp [String.data_append]⟩

/-- A successful association-list lookup returns one of the stored
values. -/
theorem lookup_mem_snd {l : List (String × String)} {k v : String}
    (h : l.lookup k = some v) : v ∈ l.map Prod.snd := by
  induction l with
  | nil => simp [List.lookup] at h
  | cons a rest ih =>
    obtain ⟨k', v'⟩ := a
    simp only [List.lookup] at h
    split at h
    · injection h with h'
      simp [h']
    · simp only [List.map, List.mem_cons]
      exact Or.inr (ih h)

/-- A successful data-order resolution returns a flag string stored in the
ordering table, paired with the `--diff` option exactly when tag-control
pairs are enabled. -/
theorem get_data_order_options_ok {order : String} {tagfirst tc_pairs : Bool}
    {od : String × String}
    (h : get_data_order_options order tagfirst tc_pairs = Except.ok od) :
    order_opts.lookup (mkOrderKey order tagfirst tc_pairs) = some od.1 ∧
      od.2 = (if tc_pairs then "--diff" else "") := by
  unfold get_data_order_options at h
  dsimp only at h
  split at h
  · injection h with h'
    subst h'
    constructor
    · assumption
    · rfl
  · exact absurd h (by simp)

/-- Token shape of the brain-mask flags. -/
theorem mask_opts_shape {cfg : Config} {env : Env} {l : List String}
    (h : mask_opts cfg env = Except.ok l) :
    ∀ t ∈ l, TokShape ["-m \""] t := by
  unfold mask_opts at h
  split at h
  · injection h with h'
    subst h'
    simp
  · split at h
    · exact absurd h (by simp)
    · injection h with h'
      subst h'
      intro t ht
      simp only [List.mem_singleton] at ht
      subst ht
      exact tokShape_append2 "-m \"" _ "\"" (by simp)

/-- Token shape of the registration flags. -/
theorem transform_opts_shape {cfg : Config} {env : Env} {l : List String}
    (h : transform_opts cfg env = Except.ok l) :
    ∀ t ∈ l, TokShape ["--asl2struc \"", "--regfrom \""] t := by
  unfold transform_opts at h
  split at h
  · split at h
    · split at h
      · exact absurd h (by simp)
      · injection h with h'
        subst h'
        intro t ht
        simp only [List.mem_singleton] at ht
        subst ht
        exact tokShape_append2 "--asl2struc \"" _ "\"" (by simp)
    · split at h
      · split at h
        · exact absurd h (by simp)
        · injection h with h'
          subst h'
          intro t ht
          simp only [List.mem_singleton] at ht
          subst ht
          exact tokShape_append2 "--regfrom \"" _ "\"" (by simp)
      · injection h with h'
        subst h'
        simp
  · injection h with h'
    subst h'
    simp

/-- Token shape of the structural-reference flags. -/
theorem struc_opts_shape {cfg : Config} {env : Env} {outdir : String}
    {pr : List Cmd × List String}
    (h : struc_opts cfg env outdir = Except.ok pr) :
    ∀ t ∈ pr.2, TokShape ["--fslanat=\"", "--s \"", "--sbrain \""] t := by
  unfold struc_opts at h
  split at h
  · split at h
    · exact absurd h (by simp)
    · injection h with h'
      subst h'
      intro t ht
      simp only [List.mem_singleton] at ht
      subst ht
      exact tokShape_append2 "--fslanat=\"" _ "\"" (by simp)
  · split at h
    · split at h
      · exact absurd h (by simp)
      · dsimp only at h
        split at h
        · exact absurd h (by simp)
        · injection h with h'
          subst h'
          intro t ht
          simp only [List.mem_cons, List.mem_singleton, List.not_mem_nil,
            or_false] at ht
          rcases ht with rfl | rfl
          · exact tokShape_append2 "--s \"" _ "/structural_head\"" (by simp)
          · exact tokShape_append2 "--sbrain \"" _ "/structural_brain\"" (by simp)
    · injection h with h'
      subst h'
      simp

/-- Inversion of the structural staging when a raw structural image is
configured: the copy of the structural image to the canonical head path
comes first, followed by either the brain-extraction command on the
original image or the copy of the pre-extracted brain image, and the
staged head/brain paths are referenced by the main command's flags. -/
theorem struc_opts_inv {cfg : Config} {env : Env} {outdir : String}
    {pr : List Cmd × List String} {s : String}
    (h : struc_opts cfg env outdir = Except.ok pr)
    (hfa : cfg.fsl_anat = none) (hsi : cfg.struc_image = some s) :
    (cfg.struc_image_bet = 1 →
      pr.1 = [⟨"imcp", ["\"" ++ s ++ "\"", "\"" ++ outdir ++ "/structural_head\""]⟩,
              ⟨"bet", ["\"" ++ s ++ "\"", "\"" ++ outdir ++ "/structural_brain\""]⟩]) ∧
    (cfg.struc_image_bet ≠ 1 →
      pr.1 = [⟨"imcp", ["\"" ++ s ++ "\"", "\"" ++ outdir ++ "/structural_head\""]⟩,
              ⟨"imcp", ["\"" ++ cfg.struc_image_brain ++ "\"",
                "\"" ++ outdir ++ "/structural_brain\""]⟩]) ∧
    pr.2 = ["--s \"" ++ outdir ++ "/structural_head\"",
            "--sbrain \"" ++ outdir ++ "/structural_brain\""] := by
  unfold struc_opts at h
  rw [hfa, hsi] at h
  dsimp only at h
  split at h
  · exact absurd h (by simp)
  · split at h
    · exact absurd h (by simp)
    · next bcmds heqb =>
      injection h with h'
      subst h'
      split at heqb
      · next hbet =>
        injection heqb with hb
        subst hb
        exact ⟨fun _ => rfl, fun hne => absurd hbet hne, rfl⟩
      · next hbet =>
        split at heqb
        · exact absurd heqb (by simp)
        · injection heqb with hb
          subst hb
          exact ⟨fun he => absurd he hbet, fun _ => rfl, rfl⟩

/-- Token shape of the distortion-correction flags. -/
theorem distcorr_opts_shape {cfg : Config} {env : Env} {l : List String}
    (h : distcorr_opts cfg env = Except.ok l) :
    ∀ t ∈ l, TokShape ["--fmap=\"", "--fmapmagbrain=\"", "--fmapmag=\"",
      "--cblip", "--echospacing=", "--pedir="] t := by
  unfold distcorr_opts at h
  split at h
  · dsimp only at h
    split at h
    · exact absurd h (by simp)
    · next args heq =>
      injection h with h'
      subst h'
      have hargs : ∀ t ∈ args, TokShape ["--fmap=\"", "--fmapmagbrain=\"",
          "--fmapmag=\"", "--cblip", "--echospacing=", "--pedir="] t := by
        split at heq
        · split at heq
          · exact absurd heq (by simp)
          · split at heq
            · exact absurd heq (by simp)
            · injection heq with heq'
              subst heq'
              intro t ht
              simp only [List.mem_cons, List.mem_singleton, List.not_mem_nil,
                or_false] at ht
              rcases ht with rfl | rfl
              · exact tokShape_append2 "--fmap=\"" _ "\"" (by simp)
              · by_cases hbe : cfg.fmap_be
                · simp only [hbe, if_true]
                  exact tokShape_append2 "--fmapmagbrain=\"" _ "\"" (by simp)
                · simp only [hbe, if_false]
                  exact tokShape_append2 "--fmapmag=\"" _ "\"" (by simp)
        · injection heq with heq'
          subst heq'
          intro t ht
          by_cases hcb : cfg.cblip
          · simp only [hcb, if_true, List.mem_singleton] at ht
            subst ht
            exact tokShape_lit "--cblip" (by simp)
          · simp [hcb] at ht
      intro t ht
      rw [List.mem_append] at ht
      rcases ht with ht | ht
      · exact hargs t ht
      · simp only [List.mem_cons, List.mem_singleton, List.not_mem_nil,
          or_false] at ht
        rcases ht with rfl | rfl
        · exact tokShape_append "--echospacing=" _ (by simp)
        · exact tokShape_append "--pedir=" _ (by simp)
  · injection h with h'
    subst h'
    simp

/-- Token shape of the reference-region calibration flags. -/
theorem calib_ref_opts_shape {cfg : Config} {env : Env} {l : List String}
    (h : calib_ref_opts cfg env = Except.ok l) :
    ∀ t ∈ l, TokShape ["--cmethod single", "--tissref ", "--te ", "--t1csf ",
      "--t2csf ", "--t2bl ", "--csf \"", "--cref \""] t := by
  have hfixed : ∀ t ∈ ["--cmethod single",
      "--tissref " ++ cfg.ref_tissue_type_name.toLower,
      "--te " ++ fmt2 cfg.seq_te, "--t1csf " ++ fmt2 cfg.ref_t1,
      "--t2csf " ++ fmt2 cfg.ref_t2, "--t2bl " ++ fmt2 cfg.blood_t2],
      TokShape ["--cmethod single", "--tissref ", "--te ", "--t1csf ",
        "--t2csf ", "--t2bl ", "--csf \"", "--cref \""] t := by
    intro t ht
    simp only [List.mem_cons, List.mem_singleton, List.not_mem_nil,
      or_false] at ht
    rcases ht with rfl | rfl | rfl | rfl | rfl | rfl
    · exact tokShape_lit "--cmethod single" (by simp)
    · exact tokShape_append "--tissref " _ (by simp)
    · exact tokShape_append "--te " _ (by simp)
    · exact tokShape_append "--t1csf " _ (by simp)
    · exact tokShape_append "--t2csf " _ (by simp)
    · exact tokShape_append "--t2bl " _ (by simp)
  unfold calib_ref_opts at h
  dsimp only at h
  split at h
  · exact absurd h (by simp)
  · next args heq =>
    have hargs : ∀ t ∈ args, TokShape ["--cmethod single", "--tissref ",
        "--te ", "--t1csf ", "--t2csf ", "--t2bl ", "--csf \"", "--cref \""] t := by
      split at heq
      · injection heq with heq'
        subst heq'
        exact hfixed
      · split at heq
        · exact absurd heq (by simp)
        · injection heq with heq'
          subst heq'
          intro t ht
          rw [List.mem_append] at ht
          rcases ht with ht | ht
          · exact hfixed t ht
          · simp only [List.mem_singleton] at ht
            subst ht
            exact tokShape_append2 "--csf \"" _ "\"" (by simp)
    split at h
    · injection h with h'
      subst h'
      exact hargs
    · split at h
      · exact absurd h (by simp)
      · injection h with h'
        subst h'
        intro t ht
        rw [List.mem_append] at ht
        rcases ht with ht | ht
        · exact hargs t ht
        · simp only [List.mem_singleton] at ht
          subst ht
          exact tokShape_append2 "--cref \"" _ "\"" (by simp)

/-- Token shape of the calibration flags. -/
theorem calib_opts_shape {cfg : Config} {env : Env} {l : List String}
    (h : calib_opts cfg env = Except.ok l) :
    ∀ t ∈ l, TokShape ["-c \"", "--tr ", "--cgain ", "--cmethod single",
      "--tissref ", "--te ", "--t1csf ", "--t2csf ", "--t2bl ", "--csf \"",
      "--cref \"", "--cmethod voxel"] t := by
  unfold calib_opts at h
  split at h
  · dsimp only at h
    split at h
    · exact absurd h (by simp)
    · split at h
      · exact absurd h (by simp)
      · next trArgs heqtr =>
        split at h
        · exact absurd h (by simp)
        · next modeArgs heqmode =>
          injection h with h'
          subst h'
          intro t ht
          simp only [List.append_assoc, List.mem_append, List.mem_cons,
            List.mem_singleton, List.not_mem_nil, or_false] at ht
          rcases ht with rfl | ht
          · exact tokShape_append2 "-c \"" _ "\"" (by simp)
          rcases ht with ht | ht
          · have htr : trArgs = ["--tr " ++ fmt2 cfg.seq_tr] := by
              split at heqtr
              · injection heqtr with h''
                exact h''.symm
              · exact absurd heqtr (by simp)
            rw [htr] at ht
            simp only [List.mem_singleton] at ht
            subst ht
            exact tokShape_append "--tr " _ (by simp)
          rcases ht with rfl | ht
          · exact tokShape_append "--cgain " _ (by simp)
          · split at heqmode
            · have := calib_ref_opts_shape heqmode t ht
              exact this.mono (by decide)
            · injection heqmode with h''
              subst h''
              simp only [List.mem_singleton] at ht
              subst ht
              exact tokShape_lit "--cmethod voxel" (by simp)
  · injection h with h'
    subst h'
    simp

/-- When calibration is enabled with a saturation-recovery M0 mode the
calibration block never succeeds. -/
theorem calib_opts_satrecov {cfg : Config} {env : Env}
    (hc : cfg.calib = true) (hm : cfg.m0_type ≠ 0) :
    ∀ l, calib_opts cfg env ≠ Except.ok l := by
  intro l h
  unfold calib_opts at h
  rw [if_pos hc] at h
  dsimp only at h
  cases hck : check_exists env "Calibration image" cfg.calib_image with
  | error e =>
    rw [hck] at h
    simp at h
  | ok u =>
    rw [hck, if_neg hm] at h
    simp at h

/-- When calibration is enabled in voxelwise mode the calibration block
emits the bare voxelwise method flag. -/
theorem calib_opts_voxel_mem {cfg : Config} {env : Env} {l : List String}
    (h : calib_opts cfg env = Except.ok l) (hc : cfg.calib = true)
    (hmode : cfg.calib_mode ≠ 0) : "--cmethod voxel" ∈ l := by
  unfold calib_opts at h
  rw [if_pos hc] at h
  dsimp only at h
  cases hck : check_exists env "Calibration image" cfg.calib_image with
  | error e =>
    rw [hck] at h
    simp at h
  | ok u =>
    rw [hck, if_neg hmode] at h
    by_cases hm0 : cfg.m0_type = 0
    · rw [if_pos hm0] at h
      dsimp only at h
      injection h with h'
      subst h'
      simp
    · rw [if_neg hm0] at h
      simp at h

/-- Inversion of a successful compilation: every validation stage
succeeded and the command list is the staged structural commands followed
by the main command built from the stage outputs. -/
theorem run_ok_inv {cfg : Config} {env : Env} {cmds : List Cmd}
    (h : get_run_sequence cfg env = Except.ok cmds) :
    ∃ nvols nrep od maskArgs trArgs struc dcArgs calArgs,
      input_shape_check cfg env = Except.ok nvols ∧
      check_volumes nvols cfg.ntis cfg.tc_pairs = Except.ok nrep ∧
      cfg.outdir ≠ "" ∧
      get_data_order_options cfg.order cfg.tagfirst cfg.tc_pairs = Except.ok od ∧
      mask_opts cfg env = Except.ok maskArgs ∧
      transform_opts cfg env = Except.ok trArgs ∧
      struc_opts cfg env cfg.outdir = Except.ok struc ∧
      distcorr_opts cfg env = Except.ok dcArgs ∧
      calib_opts cfg env = Except.ok calArgs ∧
      cmds = struc.1 ++
        [mkMainCmd cfg od.1 maskArgs trArgs struc.2 dcArgs calArgs] := by
  unfold get_run_sequence at h
  split at h
  · simp at h
  · next nvols h1 =>
    split at h
    · simp at h
    · next nrep h2 =>
      split at h
      · simp at h
      · next h3 =>
        split at h
        · simp at h
        · next od h4 =>
          split at h
          · simp at h
          · next maskArgs h5 =>
            split at h
            · simp at h
            · next trArgs h6 =>
              split at h
              · simp at h
              · next struc h7 =>
                split at h
                · simp at h
                · next dcArgs h8 =>
                  split at h
                  · simp at h
                  · next calArgs h9 =>
                    injection h with h'
                    exact ⟨nvols, nrep, od, maskArgs, trArgs, struc, dcArgs,
                      calArgs, h1, h2, h3, h4, h5, h6, h7, h8, h9, h'.symm⟩

/-- Membership in a conditional list with empty alternative. -/
theorem mem_ite_nil_right {α : Type} {c : Prop} [Decidable c] {l : List α}
    {t : α} (h : t ∈ (if c then l else [])) : t ∈ l := by
  split at h
  · exact h
  · simp at h

/-- Token shape of the white-paper block. -/
theorem wp_args_shape (cfg : Config) :
    ∀ t ∈ wp_args cfg, TokShape (wpPrefixes cfg) t := by
  intro t ht
  unfold wp_args at ht
  unfold wpPrefixes
  by_cases hwp : cfg.wp = true
  · rw [if_pos hwp] at ht
    rw [if_pos hwp]
    simp only [List.mem_singleton] at ht
    subst ht
    exact tokShape_lit "--wp" (by simp)
  · rw [if_neg hwp] at ht
    rw [if_neg hwp]
    simp only [List.mem_cons, List.mem_singleton, List.not_mem_nil,
      or_false] at ht
    rcases ht with rfl | rfl
    · exact tokShape_append "--t1 " _ (by simp)
    · exact tokShape_append "--bat " _ (by simp)

/-- Token shape of the always-emitted numeric flags. -/
theorem always_args_shape (cfg : Config) :
    ∀ t ∈ always_args cfg, TokShape ["--t1b ", "--alpha ", "--spatial=",
      "--fixbolus=", "--mc="] t := by
  intro t ht
  simp only [always_args, List.mem_cons, List.mem_singleton,
    List.not_mem_nil, or_false] at ht
  rcases ht with rfl | rfl | rfl | rfl | rfl
  · exact tokShape_append "--t1b " _ (by simp)
  · exact tokShape_append "--alpha " _ (by simp)
  · exact tokShape_append "--spatial=" _ (by simp)
  · exact tokShape_append "--fixbolus=" _ (by simp)
  · exact tokShape_append "--mc=" _ (by simp)

/-- Token shape of the conditional single flags. -/
theorem flag_args_shape (cfg : Config) :
    ∀ t ∈ flag_args cfg, TokShape ["--infert1", "--pvcorr", "--artoff"] t := by
  intro t ht
  unfold flag_args at ht
  rcases List.mem_append.mp ht with ht | ht
  · rcases List.mem_append.mp ht with ht | ht
    · have := mem_ite_nil_right ht
      simp only [List.mem_singleton] at this
      subst this
      exact tokShape_lit "--infert1" (by simp)
    · have := mem_ite_nil_right ht
      simp only [List.mem_singleton] at this
      subst this
      exact tokShape_lit "--pvcorr" (by simp)
  · split at ht
    · simp at ht
    · simp only [List.mem_singleton] at ht
      subst ht
      exact tokShape_lit "--artoff" (by simp)

/-- Token shape of the labelling flag. -/
theorem casl_args_shape (cfg : Config) :
    ∀ t ∈ casl_args cfg, TokShape ["--casl"] t := by
  intro t ht
  unfold casl_args at ht
  have := mem_ite_nil_right ht
  simp only [List.mem_singleton] at this
  subst this
  exact tokShape_lit "--casl" (by simp)

/-- Token shape of the 2D readout flags. -/
theorem slice_args_shape (cfg : Config) :
    ∀ t ∈ slice_args cfg, TokShape ["--slicedt ", "--sliceband "] t := by
  intro t ht
  unfold slice_args at ht
  have ht' := mem_ite_nil_right ht
  rcases List.mem_append.mp ht' with ht'' | ht''
  · simp only [List.mem_singleton] at ht''
    subst ht''
    exact tokShape_append "--slicedt " _ (by simp)
  · have := mem_ite_nil_right ht''
    simp only [List.mem_singleton] at this
    subst this
    exact tokShape_append "--sliceband " _ (by simp)

/-- Every token of the main command starts with one of the known flag
prefixes. -/
theorem main_args_shape {cfg : Config} {env : Env} {od : String × String}
    {maskArgs trArgs dcArgs calArgs : List String}
    {struc : List Cmd × List String}
    (h4 : get_data_order_options cfg.order cfg.tagfirst cfg.tc_pairs =
      Except.ok od)
    (h5 : mask_opts cfg env = Except.ok maskArgs)
    (h6 : transform_opts cfg env = Except.ok trArgs)
    (h7 : struc_opts cfg env cfg.outdir = Except.ok struc)
    (h8 : distcorr_opts cfg env = Except.ok dcArgs)
    (h9 : calib_opts cfg env = Except.ok calArgs) :
    ∀ t ∈ (mkMainCmd cfg od.1 maskArgs trArgs struc.2 dcArgs calArgs).args,
      TokShape (mainPrefixes cfg) t := by
  have hcore : ∀ a : String, a ∈ mainCorePrefixes → a ∈ mainPrefixes cfg :=
    fun a ha => List.mem_append_left _ ha
  have hwpp : ∀ a : String, a ∈ wpPrefixes cfg → a ∈ mainPrefixes cfg :=
    fun a ha => List.mem_append_right _ ha
  intro t ht
  simp only [mkMainCmd] at ht
  rcases List.mem_append.mp ht with ht | ht
  swap
  · exact ((calib_opts_shape h9 t ht).mono fun a ha =>
      hcore a (by revert a ha; decide))
  rcases List.mem_append.mp ht with ht | ht
  swap
  · exact ((distcorr_opts_shape h8 t ht).mono fun a ha =>
      hcore a (by revert a ha; decide))
  rcases List.mem_append.mp ht with ht | ht
  swap
  · exact ((slice_args_shape cfg t ht).mono fun a ha =>
      hcore a (by revert a ha; decide))
  rcases List.mem_append.mp ht with ht | ht
  swap
  · exact ((struc_opts_shape h7 t ht).mono fun a ha =>
      hcore a (by revert a ha; decide))
  rcases List.mem_append.mp ht with ht | ht
  swap
  · exact ((transform_opts_shape h6 t ht).mono fun a ha =>
      hcore a (by revert a ha; decide))
  rcases List.mem_append.mp ht with ht | ht
  swap
  · exact ((casl_args_shape cfg t ht).mono fun a ha =>
      hcore a (by revert a ha; decide))
  rcases List.mem_append.mp ht with ht | ht
  swap
  · exact ((mask_opts_shape h5 t ht).mono fun a ha =>
      hcore a (by revert a ha; decide))
  rcases List.mem_append.mp ht with ht | ht
  swap
  · exact ((flag_args_shape cfg t ht).mono fun a ha =>
      hcore a (by revert a ha; decide))
  rcases List.mem_append.mp ht with ht | ht
  swap
  · exact ((always_args_shape cfg t ht).mono fun a ha =>
      hcore a (by revert a ha; decide))
  rcases List.mem_append.mp ht with ht | ht
  swap
  · exact ((wp_args_shape cfg t ht).mono hwpp)
  simp only [List.mem_cons, List.mem_singleton, List.not_mem_nil,
    or_false] at ht
  rcases ht with rfl | rfl | rfl | rfl | rfl
  · exact tokShape_append2 " -i \"" _ "\"" (hcore _ (by decide))
  · exact tokShape_append2 "-o \"" _ "\"" (hcore _ (by decide))
  · have hmem := lookup_mem_snd (get_data_order_options_ok h4).1
    exact ⟨od.1, hcore _ (List.mem_append_right _ hmem), [], by simp⟩
  · exact tokShape_append "--tis " _ (hcore _ (by decide))
  · exact tokShape_append "--bolus " _ (hcore _ (by decide))

/-- Each expansion step multiplies the number of labels by the letter's
multiplier (repeats require at least one repeat). -/
theorem expand_step_length {T R : Nat} {pairs tagfirst : Bool} (hR : 1 ≤ R) :
    ∀ (c : Char) (i : Nat),
      (expand_step T R pairs tagfirst c i).length = order_mult T R pairs c := by
  intro c i
  unfold expand_step order_mult
  by_cases h1 : c = 't'
  · simp [h1]
  · by_cases h2 : c = 'p'
    · cases pairs <;> cases tagfirst <;> simp [h1, h2]
    · by_cases h3 : c = 'r'
      · simp [h1, h2, h3]
        omega
      · simp [h1, h2, h3]

/-- Flat-mapping a constant-length expansion multiplies the list length. -/
theorem flatMap_expand_length {T R : Nat} {pairs tagfirst : Bool}
    (hR : 1 ≤ R) (l : List Nat) (c : Char) :
    (l.flatMap (expand_step T R pairs tagfirst c)).length =
      l.length * order_mult T R pairs c := by
  induction l with
  | nil => simp
  | cons a l ih =>
    simp only [List.flatMap_cons, List.length_append, ih,
      expand_step_length hR, List.length_cons]
    ring

/-- Folding the expansion over a letter list multiplies the seed length by
the product of the multipliers. -/
theorem foldl_expand_length {T R : Nat} {pairs tagfirst : Bool} (hR : 1 ≤ R) :
    ∀ (chars : List Char) (seq : List Nat),
      (chars.foldl
        (fun s c => s.flatMap (expand_step T R pairs tagfirst c)) seq).length =
      seq.length * (chars.map (order_mult T R pairs)).prod := by
  intro chars
  induction chars with
  | nil => intro seq; simp
  | cons c cs ih =>
    intro seq
    rw [List.foldl_cons, ih, flatMap_expand_length hR]
    simp only [List.map_cons, List.prod_cons]
    ring

/-- Claim C3: for every valid 3-letter order string over t, r, p and all
timing-point counts T at least 1 and repeat counts R at least 1, the
volume-label sequence generated by the innermost-to-outermost expansion of
the data-order preview has length exactly T times R times (2 when
tag-control pairs are enabled, 1 otherwise). -/
theorem C3_seq_length (order : String) (T R : Nat) (pairs tagfirst : Bool)
    (hord : validOrder order) (hT : 1 ≤ T) (hR : 1 ≤ R) :
    (order_seq order T R pairs tagfirst).length =
      T * R * (if pairs then 2 else 1) := by
  unfold order_seq
  rw [foldl_expand_length hR]
  have hperm : List.Perm (order.data.reverse.map (order_mult T R pairs))
      (['t', 'r', 'p'].map (order_mult T R pairs)) :=
    List.Perm.map _ ((List.reverse_perm order.data).trans hord)
  rw [hperm.prod_eq]
  have hmt : order_mult T R pairs 't' = T := rfl
  have hmr : order_mult T R pairs 'r' = R := rfl
  have hmp : order_mult T R pairs 'p' = (if pairs then 2 else 1) := rfl
  simp only [List.map_cons, List.map_nil, List.prod_cons, List.prod_nil,
    List.length_singleton, one_mul, hmt, hmr, hmp]
  cases pairs <;> ring

/-- Claim C3 witness: the order string "trp" with 2 timing points and 3
repeats and pairs disabled yields 6 volumes. -/
theorem C3_seq_length_witness :
    validOrder "trp" ∧
    (order_seq "trp" 2 3 false true).length = 2 * 3 * (if false then 2 else 1) :=
  ⟨by decide, C3_seq_length "trp" 2 3 false true (by decide) (by decide) (by decide)⟩

/-- Claim C4: for one timing point, two repeats, tag-control pairs enabled
tag-first, and order string "ptr", the generated sequence has length 4;
its labels are [1, 2, 3, 4], where 1 is the tag and 2 the control of the
first pass and 3 and 4 are their repeat-duplicate markers (label + 2), and
every element is assigned timing index 0. -/
theorem C4_ptr_example :
    order_seq "ptr" 1 2 true true = [1, 2, 3, 4] ∧
    ti_assign (order_seq "ptr" 1 2 true true)
      (ti_sep_calc (order_seq "ptr" 1 2 true true)) 1 = [0, 0, 0, 0] := by
  decide

/-- Claim C10: with tag-control pairs disabled the generated volume-label
sequence does not depend on the tag-first flag. -/
theorem C10_tagfirst_independent (order : String) (T R : Nat)
    (hord : validOrder order) (hT : 1 ≤ T) (hR : 1 ≤ R) :
    order_seq order T R false true = order_seq order T R false false := by
  unfold order_seq
  have hstep : expand_step T R false true = expand_step T R false false := by
    funext c i
    unfold expand_step
    simp
  rw [hstep]

/-- Claim C10 witness: instantiated at order "trp", T = 2, R = 3. -/
theorem C10_tagfirst_independent_witness :
    validOrder "trp" ∧
    order_seq "trp" 2 3 false true = order_seq "trp" 2 3 false false :=
  ⟨by decide,
   C10_tagfirst_independent "trp" 2 3 (by decide) (by decide) (by decide)⟩

/-- A lookup miss makes the data-order resolution fail with the fixed
diagnostic. -/
theorem get_data_order_options_miss (order : String) (tagfirst tc_pairs : Bool)
    (h : order_opts.lookup (mkOrderKey order tagfirst tc_pairs) = none) :
    get_data_order_options order tagfirst tc_pairs =
      Except.error "This data ordering is not supported by ASL_FILE" := by
  unfold get_data_order_options
  dsimp only
  rw [h]

/-- Claim C1: every one of the 10 keys of the fixed ordering table
resolves to exactly the table's literal flag string (the two pairless keys
for either tag-first flag, the eight paired keys for the matching
tag-first flag); every key outside the table makes resolution fail with
the diagnostic naming the unsupported data ordering; and such a failure
short-circuits command-sequence compilation: when the checks preceding
ordering resolution pass, the compiler returns that very error. -/
theorem C1_order_table :
    ((∀ tf, get_data_order_options "trp" tf false =
        Except.ok ("--ibf=tis --iaf=diff", "")) ∧
     (∀ tf, get_data_order_options "rtp" tf false =
        Except.ok ("--ibf=rpt --iaf=diff", "")) ∧
     get_data_order_options "trp" true true =
        Except.ok ("--ibf=tis --iaf=tcb", "--diff") ∧
     get_data_order_options "trp" false true =
        Except.ok ("--ibf=tis --iaf=ctb", "--diff") ∧
     get_data_order_options "rtp" true true =
        Except.ok ("--rpt --iaf=tcb", "--diff") ∧
     get_data_order_options "rtp" false true =
        Except.ok ("--ibf=rpt --iaf=ctb", "--diff") ∧
     get_data_order_options "ptr" true true =
        Except.ok ("--ibf=tis --iaf=tc", "--diff") ∧
     get_data_order_options "ptr" false true =
        Except.ok ("--ibf=tis --iaf=ct", "--diff") ∧
     get_data_order_options "prt" true true =
        Except.ok ("--ibf=rpt --iaf=tc", "--diff") ∧
     get_data_order_options "prt" false true =
        Except.ok ("--ibf=rpt --iaf=ct", "--diff")) ∧
    (∀ (order : String) (tf pairs : Bool),
      order_opts.lookup (mkOrderKey order tf pairs) = none →
      get_data_order_options order tf pairs =
        Except.error "This data ordering is not supported by ASL_FILE") ∧
    (∀ (cfg : Config) (env : Env) (nvols nrep : Nat),
      input_shape_check cfg env = Except.ok nvols →
      check_volumes nvols cfg.ntis cfg.tc_pairs = Except.ok nrep →
      cfg.outdir ≠ "" →
      order_opts.lookup (mkOrderKey cfg.order cfg.tagfirst cfg.tc_pairs) = none →
      get_run_sequence cfg env =
        Except.error "This data ordering is not supported by ASL_FILE") := by
  refine ⟨⟨fun tf => by cases tf <;> rfl, fun tf => by cases tf <;> rfl,
    rfl, rfl, rfl, rfl, rfl, rfl, rfl, rfl⟩,
    get_data_order_options_miss, ?_⟩
  intro cfg env nvols nrep h1 h2 h3 h4
  unfold get_run_sequence
  rw [h1]
  dsimp only
  rw [h2]
  dsimp only
  rw [if_neg h3, get_data_order_options_miss cfg.order cfg.tagfirst cfg.tc_pairs h4]

/-- Claim C1 witness: the pairless ordering "tpr" is outside the table: it
resolves to the fixed diagnostic, and a configuration choosing it that
passes the input, volume-count and output-directory checks compiles to
that very error. -/
theorem C1_order_table_witness :
    get_data_order_options "tpr" true false =
      Except.error "This data ordering is not supported by ASL_FILE" ∧
    get_run_sequence cfgC1 envOk =
      Except.error "This data ordering is not supported by ASL_FILE" :=
  ⟨C1_order_table.2.1 "tpr" true false (by decide),
   C1_order_table.2.2 cfgC1 envOk 4 4 rfl rfl (by decide) (by decide)⟩

/-- Claim C5: with N the timing-point count doubled when tag-control pairs
are enabled, the volume-count validation step fails with the message
reporting the volume count, timing-point count and pair flag exactly when
the 4th-dimension volume count is not divisible by N, succeeds with the
quotient as the exposed repeat count when it is, and in particular 10
volumes with 3 timing points and pairs off fail, 12 volumes succeed with 4
repeats, and 24 volumes with pairs on succeed with 4 repeats. -/
theorem C5_volume_check (nvols ntis : Nat) (pairs : Bool) (hn : 1 ≤ ntis) :
    (¬ (ntis * (if pairs then 2 else 1)) ∣ nvols →
      check_volumes nvols ntis pairs = Except.error
        ("Input data contains " ++ toString nvols ++
          " volumes - not consistent with " ++ toString ntis ++
          " TIs and TC pairs=" ++ pyBool pairs)) ∧
    ((ntis * (if pairs then 2 else 1)) ∣ nvols →
      check_volumes nvols ntis pairs =
        Except.ok (nvols / (ntis * (if pairs then 2 else 1)))) ∧
    check_volumes 10 3 false = Except.error
      "Input data contains 10 volumes - not consistent with 3 TIs and TC pairs=False" ∧
    check_volumes 12 3 false = Except.ok 4 ∧
    check_volumes 24 3 true = Except.ok 4 := by
  have hNe : ntis * (if pairs then 2 else 1) =
      (if pairs then ntis * 2 else ntis) := by
    cases pairs <;> simp
  refine ⟨?_, ?_, rfl, rfl, rfl⟩
  · intro hnd
    rw [hNe] at hnd
    unfold check_volumes
    dsimp only
    rw [if_pos]
    intro hmod
    exact hnd (Nat.dvd_iff_mod_eq_zero.mpr hmod)
  · intro hdvd
    rw [hNe] at hdvd
    unfold check_volumes
    dsimp only
    rw [if_neg, hNe]
    simp only [Decidable.not_not]
    exact Nat.dvd_iff_mod_eq_zero.mp hdvd

/-- Claim C5 witness: the failing and succeeding example volumes. -/
theorem C5_volume_check_witness :
    check_volumes 10 3 false = Except.error
      "Input data contains 10 volumes - not consistent with 3 TIs and TC pairs=False" ∧
    check_volumes 24 3 true = Except.ok 4 :=
  ⟨(C5_volume_check 10 3 false (by decide)).1 (by decide),
   (C5_volume_check 24 3 true (by decide)).2.1 (by decide)⟩

/-- Claim C6: whenever calibration is enabled with the saturation-recovery
M0 mode (any selection other than proton-density), compilation never
produces a command sequence, whatever all other configuration fields and
the environment are. -/
theorem C6_satrecov_fails (cfg : Config) (env : Env) (hc : cfg.calib = true)
    (hm : cfg.m0_type ≠ 0) :
    compileOk (get_run_sequence cfg env) = false := by
  cases hres : get_run_sequence cfg env with
  | error e => rfl
  | ok cmds =>
    obtain ⟨nvols, nrep, od, maskArgs, trArgs, struc, dcArgs, calArgs,
      _, _, _, _, _, _, _, _, h9, _⟩ := run_ok_inv hres
    exact absurd h9 (calib_opts_satrecov hc hm calArgs)

/-- Claim C6 witness: a configuration with calibration enabled in
saturation-recovery mode fails to compile. -/
theorem C6_satrecov_fails_witness :
    compileOk (get_run_sequence cfgC6 envOk) = false :=
  C6_satrecov_fails cfgC6 envOk rfl (by decide)

/-- Claim C2 counterexample: a configuration with tag-control pairs
enabled compiles successfully, the resolver returns "--diff" as its
separate second component, and the main analysis command contains the
table's flag string but does not contain the "--diff" flag. -/
theorem C2_diff_counterexample :
    cfgC2.tc_pairs = true ∧
    compileOk (get_run_sequence cfgC2 envOk) = true ∧
    get_data_order_options cfgC2.order cfgC2.tagfirst cfgC2.tc_pairs =
      Except.ok ("--ibf=tis --iaf=tcb", "--diff") ∧
    "--ibf=tis --iaf=tcb" ∈
      ((cmdsOf (get_run_sequence cfgC2 envOk)).getLast?.getD ⟨"", []⟩).args ∧
    "--diff" ∉
      ((cmdsOf (get_run_sequence cfgC2 envOk)).getLast?.getD ⟨"", []⟩).args := by
  refine ⟨rfl, rfl, rfl, by decide, by decide⟩

/-- Claim C2 (amended): for every configuration with tag-control pairs
enabled that compiles successfully, the resolver returns the "--diff"
differencing flag as a separate second component, and the main analysis
command includes the table's flag string for the resolved key but not the
"--diff" flag: the caller appends "--diff" only in the preview command,
never to the main command. -/
theorem C2_diff_amended (cfg : Config) (env : Env) (cmds : List Cmd)
    (hp : cfg.tc_pairs = true)
    (h : get_run_sequence cfg env = Except.ok cmds) :
    ∃ od main,
      get_data_order_options cfg.order cfg.tagfirst cfg.tc_pairs =
        Except.ok od ∧
      od.2 = "--diff" ∧
      cmds.getLast? = some main ∧
      od.1 ∈ main.args ∧
      "--diff" ∉ main.args := by
  obtain ⟨nvols, nrep, od, maskArgs, trArgs, struc, dcArgs, calArgs,
    h1, h2, h3, h4, h5, h6, h7, h8, h9, hcmds⟩ := run_ok_inv h
  refine ⟨od, mkMainCmd cfg od.1 maskArgs trArgs struc.2 dcArgs calArgs,
    h4, ?_, ?_, ?_, ?_⟩
  · have hd := (get_data_order_options_ok h4).2
    rw [hp] at hd
    simpa using hd
  · rw [hcmds]
    exact List.getLast?_concat _
  · simp [mkMainCmd]
  · intro hmem
    have shape := main_args_shape h4 h5 h6 h7 h8 h9 _ hmem
    have hA : ∀ a ∈ mainPrefixes cfg, a.data.isPrefixOf "--diff".data = false := by
      intro a ha
      unfold mainPrefixes at ha
      rcases List.mem_append.mp ha with ha | ha
      · exact (by decide :
          ∀ a ∈ mainCorePrefixes, a.data.isPrefixOf "--diff".data = false) a ha
      · unfold wpPrefixes at ha
        by_cases hwp : cfg.wp = true
        · rw [if_pos hwp] at ha
          exact (by decide :
            ∀ a ∈ ["--wp"], a.data.isPrefixOf "--diff".data = false) a ha
        · rw [if_neg hwp] at ha
          exact (by decide :
            ∀ a ∈ ["--t1 ", "--bat "],
              a.data.isPrefixOf "--diff".data = false) a ha
    exact (shape.ne_lit hA) rfl

/-- Claim C2 (amended) witness: instantiated at the concrete paired
configuration. -/
theorem C2_diff_amended_witness :
    ∃ od main,
      get_data_order_options cfgC2.order cfgC2.tagfirst cfgC2.tc_pairs =
        Except.ok od ∧
      od.2 = "--diff" ∧
      (cmdsOf (get_run_sequence cfgC2 envOk)).getLast? = some main ∧
      od.1 ∈ main.args ∧
      "--diff" ∉ main.args :=
  C2_diff_amended cfgC2 envOk (cmdsOf (get_run_sequence cfgC2 envOk)) rfl rfl

/-- Claim C7: for every successfully compiled configuration whose
calibration mode reflects the GUI update coupling (white-paper mode forces
voxelwise): when white-paper mode is on, the main command carries the
single "--wp" flag, no token starts with the explicit "--t1 " or "--bat "
numeric flags, and with calibration enabled the bare voxelwise method
flag is emitted; when white-paper mode is off, the explicit "--t1" and
"--bat" numeric flags are present. -/
theorem C7_whitepaper (cfg : Config) (env : Env) (cmds : List Cmd)
    (hupd : cfg.calib_mode = update_calib_mode cfg.wp cfg.calib_mode)
    (h : get_run_sequence cfg env = Except.ok cmds) :
    ∃ main, cmds.getLast? = some main ∧
      (cfg.wp = true →
        "--wp" ∈ main.args ∧
        (∀ t ∈ main.args, "--t1 ".data.isPrefixOf t.data = false) ∧
        (∀ t ∈ main.args, "--bat ".data.isPrefixOf t.data = false) ∧
        (cfg.calib = true → "--cmethod voxel" ∈ main.args)) ∧
      (cfg.wp = false →
        ("--t1 " ++ fmt2 cfg.t1) ∈ main.args ∧
        ("--bat " ++ fmt2 cfg.bat) ∈ main.args) := by
  obtain ⟨nvols, nrep, od, maskArgs, trArgs, struc, dcArgs, calArgs,
    h1, h2, h3, h4, h5, h6, h7, h8, h9, hcmds⟩ := run_ok_inv h
  refine ⟨mkMainCmd cfg od.1 maskArgs trArgs struc.2 dcArgs calArgs,
    by rw [hcmds]; exact List.getLast?_concat _, ?_, ?_⟩
  · intro hwp
    refine ⟨?_, ?_, ?_, ?_⟩
    · simp [mkMainCmd, wp_args, hwp]
    · intro t ht
      have shape := main_args_shape h4 h5 h6 h7 h8 h9 t ht
      apply shape.not_startsWith
      intro a ha
      unfold mainPrefixes at ha
      rcases List.mem_append.mp ha with ha | ha
      · exact (by decide : ∀ a ∈ mainCorePrefixes,
          "--t1 ".data.isPrefixOf a.data = false ∧
          a.data.isPrefixOf "--t1 ".data = false) a ha
      · unfold wpPrefixes at ha
        rw [if_pos hwp] at ha
        exact (by decide : ∀ a ∈ ["--wp"],
          "--t1 ".data.isPrefixOf a.data = false ∧
          a.data.isPrefixOf "--t1 ".data = false) a ha
    · intro t ht
      have shape := main_args_shape h4 h5 h6 h7 h8 h9 t ht
      apply shape.not_startsWith
      intro a ha
      unfold mainPrefixes at ha
      rcases List.mem_append.mp ha with ha | ha
      · exact (by decide : ∀ a ∈ mainCorePrefixes,
          "--bat ".data.isPrefixOf a.data = false ∧
          a.data.isPrefixOf "--bat ".data = false) a ha
      · unfold wpPrefixes at ha
        rw [if_pos hwp] at ha
        exact (by decide : ∀ a ∈ ["--wp"],
          "--bat ".data.isPrefixOf a.data = false ∧
          a.data.isPrefixOf "--bat ".data = false) a ha
    · intro hcal
      have hm1 : cfg.calib_mode = 1 := by
        conv_lhs => rw [hupd]
        unfold update_calib_mode
        rw [if_pos hwp]
      have hv := calib_opts_voxel_mem h9 hcal (by rw [hm1]; exact one_ne_zero)
      simp only [mkMainCmd]
      exact List.mem_append_right _ hv
  · intro hwp
    constructor
    · simp [mkMainCmd, wp_args, hwp]
    · simp [mkMainCmd, wp_args, hwp]

/-- Claim C7 witness: instantiated at the white-paper configuration with
voxelwise calibration. -/
theorem C7_whitepaper_witness :
    ∃ main, (cmdsOf (get_run_sequence cfgC7 envOk)).getLast? = some main ∧
      (cfgC7.wp = true →
        "--wp" ∈ main.args ∧
        (∀ t ∈ main.args, "--t1 ".data.isPrefixOf t.data = false) ∧
        (∀ t ∈ main.args, "--bat ".data.isPrefixOf t.data = false) ∧
        (cfgC7.calib = true → "--cmethod voxel" ∈ main.args)) ∧
      (cfgC7.wp = false →
        ("--t1 " ++ fmt2 cfgC7.t1) ∈ main.args ∧
        ("--bat " ++ fmt2 cfgC7.bat) ∈ main.args) :=
  C7_whitepaper cfgC7 envOk (cmdsOf (get_run_sequence cfgC7 envOk)) rfl rfl

/-- Claim C8 counterexample: with a raw structural image and brain
extraction requested, the compiled sequence stages the copy and then runs
"bet" on the original image "struc.nii", not on the copied image: the
canonical copied path "out/structural_head" does not occur among the
brain-extraction command's arguments. -/
theorem C8_bet_counterexample :
    compileOk (get_run_sequence cfgC8 envOk) = true ∧
    cfgC8.struc_image = some "struc.nii" ∧
    cfgC8.struc_image_bet = 1 ∧
    (cmdsOf (get_run_sequence cfgC8 envOk)).length = 3 ∧
    (cmdsOf (get_run_sequence cfgC8 envOk)).getD 0 ⟨"", []⟩ =
      ⟨"imcp", ["\"struc.nii\"", "\"out/structural_head\""]⟩ ∧
    (cmdsOf (get_run_sequence cfgC8 envOk)).getD 1 ⟨"", []⟩ =
      ⟨"bet", ["\"struc.nii\"", "\"out/structural_brain\""]⟩ ∧
    "\"out/structural_head\"" ∉
      ((cmdsOf (get_run_sequence cfgC8 envOk)).getD 1 ⟨"", []⟩).args := by
  refine ⟨rfl, rfl, rfl, rfl, by decide, by decide, by decide⟩

/-- Claim C8 (amended): for every successfully compiled configuration
supplying a raw structural image (no anatomical-pipeline directory), the
command sequence starts with a copy command staging the structural image
to the canonical output-directory head path before the main analysis
command, followed, when brain extraction is requested, by a
brain-extraction command operating on the original structural image
(writing to the canonical brain path), and otherwise by a copy command
for the pre-extracted brain image; the main analysis command references
the staged head and brain paths. -/
theorem C8_struc_staging (cfg : Config) (env : Env) (cmds : List Cmd)
    (s : String) (hfa : cfg.fsl_anat = none) (hsi : cfg.struc_image = some s)
    (h : get_run_sequence cfg env = Except.ok cmds) :
    ∃ rest main,
      cmds = ⟨"imcp", ["\"" ++ s ++ "\"",
        "\"" ++ cfg.outdir ++ "/structural_head\""]⟩ :: (rest ++ [main]) ∧
      main.prog = "oxford_asl" ∧
      ("--s \"" ++ cfg.outdir ++ "/structural_head\"") ∈ main.args ∧
      ("--sbrain \"" ++ cfg.outdir ++ "/structural_brain\"") ∈ main.args ∧
      (cfg.struc_image_bet = 1 →
        rest = [⟨"bet", ["\"" ++ s ++ "\"",
          "\"" ++ cfg.outdir ++ "/structural_brain\""]⟩]) ∧
      (cfg.struc_image_bet ≠ 1 →
        rest = [⟨"imcp", ["\"" ++ cfg.struc_image_brain ++ "\"",
          "\"" ++ cfg.outdir ++ "/structural_brain\""]⟩]) := by
  obtain ⟨nvols, nrep, od, maskArgs, trArgs, struc, dcArgs, calArgs,
    h1, h2, h3, h4, h5, h6, h7, h8, h9, hcmds⟩ := run_ok_inv h
  obtain ⟨hbet1, hbet0, hargs⟩ := struc_opts_inv h7 hfa hsi
  by_cases hbet : cfg.struc_image_bet = 1
  · refine ⟨[⟨"bet", ["\"" ++ s ++ "\"",
      "\"" ++ cfg.outdir ++ "/structural_brain\""]⟩],
      mkMainCmd cfg od.1 maskArgs trArgs struc.2 dcArgs calArgs,
      ?_, rfl, ?_, ?_, fun _ => rfl, fun hne => absurd hbet hne⟩
    · rw [hcmds, hbet1 hbet]
      rfl
    · simp [mkMainCmd, hargs]
    · simp [mkMainCmd, hargs]
  · refine ⟨[⟨"imcp", ["\"" ++ cfg.struc_image_brain ++ "\"",
      "\"" ++ cfg.outdir ++ "/structural_brain\""]⟩],
      mkMainCmd cfg od.1 maskArgs trArgs struc.2 dcArgs calArgs,
      ?_, rfl, ?_, ?_, fun he => absurd he hbet, fun _ => rfl⟩
    · rw [hcmds, hbet0 hbet]
      rfl
    · simp [mkMainCmd, hargs]
    · simp [mkMainCmd, hargs]

/-- Claim C8 (amended) witness: instantiated at the concrete structural
configuration with brain extraction requested. -/
theorem C8_struc_staging_witness :
    ∃ rest main,
      cmdsOf (get_run_sequence cfgC8 envOk) =
        ⟨"imcp", ["\"" ++ "struc.nii" ++ "\"",
          "\"" ++ cfgC8.outdir ++ "/structural_head\""]⟩ :: (rest ++ [main]) ∧
      main.prog = "oxford_asl" ∧
      ("--s \"" ++ cfgC8.outdir ++ "/structural_head\"") ∈ main.args ∧
      ("--sbrain \"" ++ cfgC8.outdir ++ "/structural_brain\"") ∈ main.args ∧
      (cfgC8.struc_image_bet = 1 →
        rest = [⟨"bet", ["\"" ++ "struc.nii" ++ "\"",
          "\"" ++ cfgC8.outdir ++ "/structural_brain\""]⟩]) ∧
      (cfgC8.struc_image_bet ≠ 1 →
        rest = [⟨"imcp", ["\"" ++ cfgC8.struc_image_brain ++ "\"",
          "\"" ++ cfgC8.outdir ++ "/structural_brain\""]⟩]) :=
  C8_struc_staging cfgC8 envOk (cmdsOf (get_run_sequence cfgC8 envOk))
    "struc.nii" rfl rfl rfl

/-- Adding a shared constant to every element is pointwise zipping with a
replicated list. -/
theorem zipWith_add_replicate (bd : ℚ) :
    ∀ l : List ℚ,
      List.zipWith (· + ·) l (List.replicate l.length bd) = l.map (· + bd) := by
  intro l
  induction l with
  | nil => rfl
  | cons a l ih => simp [List.replicate_succ, ih]

/-- Claim C9: for every successfully compiled configuration, with
cASL/pcASL labelling (selection 1) and a single shared bolus duration the
timing values passed in the main command's "--tis" argument are the
user-entered PLDs each increased by the bolus duration (the shared value
being replicated across all timing points), and the "--casl" flag is
emitted; with pASL (selection 0) the entered timing values are emitted
unchanged. -/
theorem C9_timing (cfg : Config) (env : Env) (cmds : List Cmd)
    (h : get_run_sequence cfg env = Except.ok cmds) :
    ∃ main, cmds.getLast? = some main ∧
      (∀ bd : ℚ, cfg.labelling = 1 → cfg.bolus_dur = [bd] →
        cfg.ti_list.length = cfg.ntis →
        (tis cfg = cfg.ti_list.map (· + bd) ∧
         ("--tis " ++ String.intercalate ","
           ((cfg.ti_list.map (· + bd)).map fmt2)) ∈ main.args ∧
         "--casl" ∈ main.args)) ∧
      (cfg.labelling = 0 →
        (tis cfg = cfg.ti_list ∧
         ("--tis " ++ String.intercalate ","
           (cfg.ti_list.map fmt2)) ∈ main.args)) := by
  obtain ⟨nvols, nrep, od, maskArgs, trArgs, struc, dcArgs, calArgs,
    h1, h2, h3, h4, h5, h6, h7, h8, h9, hcmds⟩ := run_ok_inv h
  refine ⟨mkMainCmd cfg od.1 maskArgs trArgs struc.2 dcArgs calArgs,
    by rw [hcmds]; exact List.getLast?_concat _, ?_, ?_⟩
  · intro bd hlab hbd hlen
    have htis : tis cfg = cfg.ti_list.map (· + bd) := by
      unfold tis
      rw [if_pos hlab, hbd]
      dsimp only
      rw [← hlen]
      exact zipWith_add_replicate bd cfg.ti_list
    refine ⟨htis, ?_, ?_⟩
    · have hmem : ("--tis " ++ String.intercalate ","
          ((tis cfg).map fmt2)) ∈
          (mkMainCmd cfg od.1 maskArgs trArgs struc.2 dcArgs calArgs).args := by
        simp [mkMainCmd]
      rw [htis] at hmem
      exact hmem
    · simp [mkMainCmd, casl_args, hlab]
  · intro hlab
    have htis : tis cfg = cfg.ti_list := by
      unfold tis
      rw [if_neg (by simp [hlab])]
    refine ⟨htis, ?_⟩
    have hmem : ("--tis " ++ String.intercalate ","
        ((tis cfg).map fmt2)) ∈
        (mkMainCmd cfg od.1 maskArgs trArgs struc.2 dcArgs calArgs).args := by
      simp [mkMainCmd]
    rw [htis] at hmem
    exact hmem

/-- Claim C9 witness: instantiated at the cASL configuration with a shared
bolus duration. -/
theorem C9_timing_witness :
    ∃ main, (cmdsOf (get_run_sequence cfgC9 envOk)).getLast? = some main ∧
      (∀ bd : ℚ, cfgC9.labelling = 1 → cfgC9.bolus_dur = [bd] →
        cfgC9.ti_list.length = cfgC9.ntis →
        (tis cfgC9 = cfgC9.ti_list.map (· + bd) ∧
         ("--tis " ++ String.intercalate ","
           ((cfgC9.ti_list.map (· + bd)).map fmt2)) ∈ main.args ∧
         "--casl" ∈ main.args)) ∧
      (cfgC9.labelling = 0 →
        (tis cfgC9 = cfgC9.ti_list ∧
         ("--tis " ++ String.intercalate ","
           (cfgC9.ti_list.map fmt2)) ∈ main.args)) :=
  C9_timing cfgC9 envOk (cmdsOf (get_run_sequence cfgC9 envOk)) rfl

end AslGui
